import Mathlib

/-!
Shallow embedding of `src/bt_vendor.cc` (libbt-vendor-intel): the Intel
Bluetooth vendor library. Kernel-facing primitives (socket, bind, write,
poll, read, ioctl, open, close, property_set) are modelled by explicit
outcome oracles in an environment record, and the side effects the code
performs are collected in explicit traces. All machine integers are
modelled as Nat/Int; byte-narrowing writes use `% 256` where they occur.
-/

namespace LibbtVendor

/-! ### Constants, from the `#define` block of `src/bt_vendor.cc` -/

def BTPROTO_HCI : Nat := 1

def HCI_CHANNEL_USER : Nat := 1

def HCI_CHANNEL_CONTROL : Nat := 3

def HCI_DEV_NONE : Nat := 0xffff

def RFKILL_TYPE_BLUETOOTH : Nat := 2

def RFKILL_OP_CHANGE_ALL : Nat := 3

def MGMT_OP_INDEX_LIST : Nat := 0x0003

def MGMT_EV_INDEX_ADDED : Nat := 0x0004

def MGMT_EV_COMMAND_COMP : Nat := 0x0001

def MGMT_EV_SIZE_MAX : Nat := 1024

def MGMT_EV_POLL_TIMEOUT : Nat := 3000

/-- `BT_VND_PWR_ON` from the external header `bt_vendor_lib.h`
(`enum { BT_VND_PWR_OFF, BT_VND_PWR_ON }`, so OFF = 0, ON = 1). -/
def BT_VND_PWR_ON : Int := 1

/-! ### `struct mgmt_pkt` (lines 67-72) and the command-complete payload view
`struct mgmt_event_read_index` (lines 74-79).

The packed struct `mgmt_pkt` is a 6-byte header (opcode:2, index:2, len:2)
followed by a 1024-byte data buffer. `bt_vendor_wait_hcidev` overlays
`struct mgmt_event_read_index` on `ev.data`, so in the payload:
byte 0-1 = cc_opcode (little endian), byte 2 = status, bytes 3-4 = num_intf,
and index[i] occupies bytes 5+2i and 6+2i. We model the data buffer (and
whatever memory lies beyond it, since the scan loop is not bounds-checked)
as a total byte function. -/

structure MgmtPkt where
  opcode : Nat
  index : Nat
  len : Nat
  data : Nat → Nat

/-- Byte of the packet payload at offset `o` (bytes are 8-bit). -/
def byteAt (p : MgmtPkt) (o : Nat) : Nat := p.data o % 256

/-- Little-endian 16-bit word of the payload at offset `o`. -/
def word16 (p : MgmtPkt) (o : Nat) : Nat := byteAt p o + 256 * byteAt p (o + 1)

/-- `cc->cc_opcode`: payload bytes 0-1. -/
def cc_opcode (p : MgmtPkt) : Nat := word16 p 0

/-- `cc->status`: payload byte 2. -/
def ccStatus (p : MgmtPkt) : Nat := byteAt p 2

/-- `cc->num_intf`: payload bytes 3-4 (packed struct, no padding). -/
def num_intf (p : MgmtPkt) : Nat := word16 p 3

/-- `cc->index[i]`: payload bytes 5+2i and 6+2i. -/
def indexAt (p : MgmtPkt) (i : Nat) : Nat := word16 p (5 + 2 * i)

/-! ### The wait loop of `bt_vendor_wait_hcidev` (lines 184-221)

Each iteration of the `while (1)` loop polls the control socket and then
possibly reads one management packet. One iteration's interaction with the
kernel is summarised by a `CycleOutcome`:
* `pollError`: `poll` returned -1;
* `pollTimeout`: `poll` returned 0;
* `noPollin`: `poll` returned > 0 but `revents` lacked `POLLIN`;
* `readError`: `POLLIN` was set and `read` returned < 0;
* `packet p`: `read` succeeded and `p` is the content of `ev` afterwards. -/

inductive CycleOutcome where
  | pollError : CycleOutcome
  | pollTimeout : CycleOutcome
  | noPollin : CycleOutcome
  | readError : CycleOutcome
  | packet : MgmtPkt → CycleOutcome

/-- What one loop iteration decides: exit the loop returning `ret` (via
`break` with `ret = -1` or `goto end` with `ret = 0`), or keep polling. -/
inductive StepRes where
  | exit : Int → StepRes
  | again : StepRes
deriving DecidableEq

/-- Lines 206-219: processing of one successfully read packet.
`target` is the global `hci_interface`. -/
def processPacket (target : Nat) (p : MgmtPkt) : StepRes :=
  if p.opcode = MGMT_EV_INDEX_ADDED ∧ p.index = target then
    StepRes.exit 0
  else if p.opcode = MGMT_EV_COMMAND_COMP then
    if cc_opcode p ≠ MGMT_OP_INDEX_LIST ∨ ccStatus p ≠ 0 then
      StepRes.again
    else if (List.range (num_intf p)).any (fun i => indexAt p i = target) then
      StepRes.exit 0
    else
      StepRes.again
  else
    StepRes.again

/-- Lines 186-219: what one whole loop iteration decides. -/
def step (target : Nat) (c : CycleOutcome) : StepRes :=
  match c with
  | CycleOutcome.pollError => StepRes.exit (-1)
  | CycleOutcome.pollTimeout => StepRes.exit (-1)
  | CycleOutcome.noPollin => StepRes.again
  | CycleOutcome.readError => StepRes.exit (-1)
  | CycleOutcome.packet p => processPacket target p

/-- Observable effects of `bt_vendor_wait_hcidev`. -/
inductive WEff where
  | socketCreate : Bool → WEff
  | bindCtl : Bool → WEff
  | writeCmd : Int → WEff
  | pollCall : Nat → WEff
  | readCall : WEff
  | closeFd : WEff
deriving DecidableEq

/-- Kernel calls one loop iteration performs: one `poll` (always with the
fixed budget `MGMT_EV_POLL_TIMEOUT`, line 186), then a `read` when `POLLIN`
was reported. -/
def cycleEffs (c : CycleOutcome) : List WEff :=
  match c with
  | CycleOutcome.pollError => [WEff.pollCall MGMT_EV_POLL_TIMEOUT]
  | CycleOutcome.pollTimeout => [WEff.pollCall MGMT_EV_POLL_TIMEOUT]
  | CycleOutcome.noPollin => [WEff.pollCall MGMT_EV_POLL_TIMEOUT]
  | CycleOutcome.readError => [WEff.pollCall MGMT_EV_POLL_TIMEOUT, WEff.readCall]
  | CycleOutcome.packet _ => [WEff.pollCall MGMT_EV_POLL_TIMEOUT, WEff.readCall]

/-- The `while (1)` loop run over a given list of cycle outcomes.
Result `none` means the supplied outcomes were exhausted with the loop
still running (the real loop would keep polling). -/
def runLoop (target : Nat) : List CycleOutcome → Option Int × List WEff
  | [] => (none, [])
  | c :: cs =>
    match step target c with
    | StepRes.exit r => (some r, cycleEffs c)
    | StepRes.again => ((runLoop target cs).1, cycleEffs c ++ (runLoop target cs).2)

/-- Outcomes of the kernel primitives `bt_vendor_wait_hcidev` invokes. -/
structure WaitEnv where
  socketOk : Bool
  bindOk : Bool
  writeRet : Int
  cycles : List CycleOutcome

/-- Lines 142-226: `bt_vendor_wait_hcidev`. Creates the control socket,
binds it to the management control channel, writes the 6-byte index-list
request (`wrote != 6` is an error), then runs the wait loop; `close(fd)`
is performed at `end:` (line 224) and in the bind-failure branch
(line 164). First component: the returned status (`none` when the loop
outcomes were exhausted without a decision). -/
def bt_vendor_wait_hcidev (target : Nat) (env : WaitEnv) : Option Int × List WEff :=
  if env.socketOk = false then
    (some (-1), [WEff.socketCreate false])
  else if env.bindOk = false then
    (some (-1), [WEff.socketCreate true, WEff.bindCtl false, WEff.closeFd])
  else if env.writeRet ≠ 6 then
    (some (-1),
      [WEff.socketCreate true, WEff.bindCtl true, WEff.writeCmd env.writeRet, WEff.closeFd])
  else
    match runLoop target env.cycles with
    | (none, t) =>
      (none, [WEff.socketCreate true, WEff.bindCtl true, WEff.writeCmd 6] ++ t)
    | (some r, t) =>
      (some r,
        [WEff.socketCreate true, WEff.bindCtl true, WEff.writeCmd 6] ++ t ++ [WEff.closeFd])

/-! ### The command-complete index scan (lines 216-218) as a memory access
pattern.

`for (i = 0; i < cc->num_intf; i++) if (cc->index[i] == hci_interface) goto end;`

The loop bound is `cc->num_intf`, decoded from the payload itself; the
number of bytes actually received by `read` is never consulted, nor is the
1024-byte size of `ev.data`. `ccIterations` counts how many iterations the
loop executes (it stops at the first match), and `ccAccessedBytes` lists
the payload byte offsets read as `cc->index[i]` during those iterations. -/

/-- Iterations executed by the index scan starting at `i` with `fuel`
iterations left (`fuel` starts at `num_intf`). -/
def ccScanFrom (target : Nat) (p : MgmtPkt) : Nat → Nat → Nat
  | 0, _ => 0
  | fuel + 1, i => if indexAt p i = target then 1 else 1 + ccScanFrom target p fuel (i + 1)

/-- Total iterations the scan loop executes on packet `p`. -/
def ccIterations (target : Nat) (p : MgmtPkt) : Nat :=
  ccScanFrom target p (num_intf p) 0

/-- Payload byte offsets read as `cc->index[i]` by the scan loop. -/
def ccAccessedBytes (target : Nat) (p : MgmtPkt) : List Nat :=
  (List.range (ccIterations target p)).flatMap (fun i => [5 + 2 * i, 6 + 2 * i])

/-- Largest payload byte offset the scan loop reads (0 when it reads none). -/
def ccMaxAccessedByte (target : Nat) (p : MgmtPkt) : Nat :=
  match ccIterations target p with
  | 0 => 0
  | k + 1 => 6 + 2 * k

/-! ### `struct rfkill_event` (lines 60-65) and `bt_vendor_rfkill`
(lines 265-293). -/

structure rfkill_event where
  idx : Nat
  type : Nat
  op : Nat
  soft : Nat
  hard : Nat
deriving DecidableEq

/-- The record `bt_vendor_rfkill` builds for a given `block` argument
(lines 277-281): zeroed, then `op`, `type`, `hard`, `soft` assigned; the
`uint8_t` fields narrow the `int` argument mod 256. -/
def rfkillRecord (block : Nat) : rfkill_event :=
  { idx := 0
    type := RFKILL_TYPE_BLUETOOTH
    op := RFKILL_OP_CHANGE_ALL
    soft := block % 256
    hard := block % 256 }

/-- Observable effects of the power-control path: the rfkill device
open/write/close, and the hardware-config hook request issued through
`property_set` (`hookSet true` = "stop", `hookSet false` = "start"). -/
inductive PEff where
  | rfOpen : PEff
  | rfWrite : rfkill_event → PEff
  | rfClose : PEff
  | hookSet : Bool → PEff
deriving DecidableEq

/-- Global flags (set by `bt_vendor_init`) and outcomes of the kernel and
property primitives invoked by the dispatcher's synchronous operations. -/
structure Env where
  rfkill_en : Bool
  bt_hwcfg_en : Bool
  hci_interface : Nat
  rfkillOpenOk : Bool
  rfkillWriteLen : Int
  propSetOk : Bool
  socketRet : Int
  fwWaitRet : Int
  fwIoctlRet : Int
  fwBindRet : Int

/-- Lines 265-293: `bt_vendor_rfkill(block)`. Opens `/dev/rfkill`
write-only, writes one `rfkill_event`, closes the descriptor. Returns -1
when the open fails, 1 when the write fails, 0 otherwise. -/
def bt_vendor_rfkill (env : Env) (block : Nat) : Int × List PEff :=
  if env.rfkillOpenOk = false then
    (-1, [PEff.rfOpen])
  else if env.rfkillWriteLen < 0 then
    (1, [PEff.rfOpen, PEff.rfWrite (rfkillRecord block), PEff.rfClose])
  else
    (0, [PEff.rfOpen, PEff.rfWrite (rfkillRecord block), PEff.rfClose])

/-- Lines 125-140: `bt_vendor_hw_cfg(stop)`. A no-op returning 0 when the
hook flag is disabled; otherwise one `property_set` of "stop" or "start",
returning 1 when the set fails and 0 otherwise. -/
def bt_vendor_hw_cfg (env : Env) (stop : Bool) : Int × List PEff :=
  if env.bt_hwcfg_en = false then
    (0, [])
  else if env.propSetOk = false then
    (1, [PEff.hookSet stop])
  else
    (0, [PEff.hookSet stop])

/-- Lines 345-356: the `BT_VND_OP_POWER_CTRL` branch of `bt_vendor_op`.
`param` is the dereferenced `int*` argument (`none` = NULL pointer). -/
def powerCtrl (env : Env) (param : Option Int) : Int × List PEff :=
  match param with
  | none => (0, [])
  | some v =>
    if env.rfkill_en = false then
      (0, [])
    else if v = BT_VND_PWR_ON then
      let r1 := bt_vendor_rfkill env 0
      if r1.1 = 0 then
        let r2 := bt_vendor_hw_cfg env false
        (r2.1, r1.2 ++ r2.2)
      else
        r1
    else
      let r1 := bt_vendor_hw_cfg env true
      if r1.1 = 0 then
        let r2 := bt_vendor_rfkill env 1
        (r2.1, r1.2 ++ r2.2)
      else
        r1

/-! ### Session state, the channel manager, the bringup sequence and the
dispatcher. -/

/-- The mutable globals the channel operations touch: `bt_vendor_fd`
(line 83, -1 = no active descriptor) and the four channel slots of the
caller's fd array (`CH_CMD`, `CH_EVT`, `CH_ACL_OUT`, `CH_ACL_IN` = 0..3
in `bt_vendor_lib.h`). -/
structure SessionState where
  bt_vendor_fd : Int
  ch_cmd : Int
  ch_evt : Int
  ch_acl_out : Int
  ch_acl_in : Int
deriving DecidableEq

/-- Kinds of asynchronous callbacks in the vendor callback table. -/
inductive CbKind where
  | fwcfg : CbKind
  | scocfg : CbKind
  | lpm : CbKind
  | audio_state : CbKind
  | epilog : CbKind
deriving DecidableEq

/-- Observable effects of the dispatcher and the components it routes to. -/
inductive Eff where
  | power : PEff → Eff
  | cb : CbKind → Bool → Eff
  | sockCreate : Int → Eff
  | closeFd : Int → Eff
  | waitHci : Eff
  | ioctlDown : Eff
  | bindUser : Eff
  | writeLpmTimeout : Nat → Eff
deriving DecidableEq

/-- Lines 228-250: `bt_vendor_open(param)`. Creates a raw HCI socket; on
success stores the new descriptor in all four channel slots of the
caller's array and in `bt_vendor_fd`, and returns 1; returns -1 when
socket creation fails (state untouched, nothing closed). -/
def bt_vendor_open (env : Env) (s : SessionState) : Int × SessionState × List Eff :=
  if env.socketRet < 0 then
    (-1, s, [Eff.sockCreate env.socketRet])
  else
    (1,
      { bt_vendor_fd := env.socketRet
        ch_cmd := env.socketRet
        ch_evt := env.socketRet
        ch_acl_out := env.socketRet
        ch_acl_in := env.socketRet },
      [Eff.sockCreate env.socketRet])

/-- Lines 252-263: `bt_vendor_close`. Closes the active descriptor when
there is one and resets `bt_vendor_fd` to -1; always returns 0. -/
def bt_vendor_close (s : SessionState) : Int × SessionState × List Eff :=
  if s.bt_vendor_fd ≠ -1 then
    (0, { s with bt_vendor_fd := -1 }, [Eff.closeFd s.bt_vendor_fd])
  else
    (0, s, [])

/-- Lines 296-337: `bt_vendor_fw_cfg`. The bringup sequence: requires an
open channel descriptor (`fd == -1` check), then `bt_vendor_wait_hcidev`
(outcome `env.fwWaitRet`, nonzero = failure), then the `HCIDEVDOWN` ioctl
(nonzero = failure), then the user-channel bind (negative = failure); each
failure path and the success path invoke `fwcfg_cb` exactly where the
source does. Returns the list of effects (the function itself is `void`). -/
def bt_vendor_fw_cfg (env : Env) (s : SessionState) : List Eff :=
  if s.bt_vendor_fd = -1 then
    [Eff.cb CbKind.fwcfg false]
  else if env.fwWaitRet ≠ 0 then
    [Eff.waitHci, Eff.cb CbKind.fwcfg false]
  else if env.fwIoctlRet ≠ 0 then
    [Eff.waitHci, Eff.ioctlDown, Eff.cb CbKind.fwcfg false]
  else if env.fwBindRet < 0 then
    [Eff.waitHci, Eff.ioctlDown, Eff.bindUser, Eff.cb CbKind.fwcfg false]
  else
    [Eff.waitHci, Eff.ioctlDown, Eff.bindUser, Eff.cb CbKind.fwcfg true]

/-- The opcodes of `bt_vendor_opcode_t` handled by `bt_vendor_op`
(external header `bt_vendor_lib.h`). -/
inductive BtOpcode where
  | BT_VND_OP_POWER_CTRL : BtOpcode
  | BT_VND_OP_FW_CFG : BtOpcode
  | BT_VND_OP_SCO_CFG : BtOpcode
  | BT_VND_OP_USERIAL_OPEN : BtOpcode
  | BT_VND_OP_USERIAL_CLOSE : BtOpcode
  | BT_VND_OP_GET_LPM_IDLE_TIMEOUT : BtOpcode
  | BT_VND_OP_LPM_SET_MODE : BtOpcode
  | BT_VND_OP_LPM_WAKE_SET_STATE : BtOpcode
  | BT_VND_OP_SET_AUDIO_STATE : BtOpcode
  | BT_VND_OP_EPILOG : BtOpcode
  | BT_VND_OP_A2DP_OFFLOAD_START : BtOpcode
  | BT_VND_OP_A2DP_OFFLOAD_STOP : BtOpcode
deriving DecidableEq

/-- Lines 339-404: `bt_vendor_op(opcode, param)`. `retval` starts at 0 and
is only changed by the power-control, channel-open and channel-close
branches. `param` models the dereferenced `int*` for `POWER_CTRL`
(`none` = NULL). Returns (retval, updated session state, effects). -/
def bt_vendor_op (env : Env) (s : SessionState) (op : BtOpcode) (param : Option Int) :
    Int × SessionState × List Eff :=
  match op with
  | BtOpcode.BT_VND_OP_POWER_CTRL =>
    let r := powerCtrl env param
    (r.1, s, r.2.map Eff.power)
  | BtOpcode.BT_VND_OP_FW_CFG => (0, s, bt_vendor_fw_cfg env s)
  | BtOpcode.BT_VND_OP_SCO_CFG => (0, s, [Eff.cb CbKind.scocfg true])
  | BtOpcode.BT_VND_OP_USERIAL_OPEN => bt_vendor_open env s
  | BtOpcode.BT_VND_OP_USERIAL_CLOSE => bt_vendor_close s
  | BtOpcode.BT_VND_OP_GET_LPM_IDLE_TIMEOUT => (0, s, [Eff.writeLpmTimeout 3000])
  | BtOpcode.BT_VND_OP_LPM_SET_MODE => (0, s, [Eff.cb CbKind.lpm true])
  | BtOpcode.BT_VND_OP_LPM_WAKE_SET_STATE => (0, s, [])
  | BtOpcode.BT_VND_OP_SET_AUDIO_STATE => (0, s, [Eff.cb CbKind.audio_state true])
  | BtOpcode.BT_VND_OP_EPILOG => (0, s, [Eff.cb CbKind.epilog true])
  | BtOpcode.BT_VND_OP_A2DP_OFFLOAD_START => (0, s, [])
  | BtOpcode.BT_VND_OP_A2DP_OFFLOAD_STOP => (0, s, [])

/-! ### Claim-side predicates and trace observers. -/

/-- The success criterion of the index watcher, spelled as the spec does:
the cycle delivered either an index-added notification whose header index
equals the target, or a command-complete event whose embedded sub-opcode
is index-list, whose status is 0, and whose index sequence contains the
target. -/
def successEvent (target : Nat) (c : CycleOutcome) : Bool :=
  match c with
  | CycleOutcome.packet p =>
    (decide (p.opcode = MGMT_EV_INDEX_ADDED) && decide (p.index = target)) ||
      (decide (p.opcode = MGMT_EV_COMMAND_COMP) &&
        decide (cc_opcode p = MGMT_OP_INDEX_LIST) && decide (ccStatus p = 0) &&
        (List.range (num_intf p)).any (fun i => decide (indexAt p i = target)))
  | _ => false

/-- Is this effect an asynchronous callback invocation? -/
def isCbEff : Eff → Bool
  | Eff.cb _ _ => true
  | _ => false

/-- Is this effect the `close(fd)` of the watcher's control socket? -/
def isCloseEff : WEff → Bool
  | WEff.closeFd => true
  | _ => false

/-- Is this effect a write to the rfkill device? -/
def isRfWrite : PEff → Bool
  | PEff.rfWrite _ => true
  | _ => false

/-- `eachPrecededBy a b seen t = true` iff every occurrence of `b` in `t`
is strictly preceded by an occurrence of `a` (`seen` records whether an
`a` was already met). -/
def eachPrecededBy (a b : PEff) : Bool → List PEff → Bool
  | _, [] => true
  | seen, x :: xs =>
    (if x = b then seen else true) && eachPrecededBy a b (seen || decide (x = a)) xs

/-- `noneBeforeEach bad b seen t = true` iff no effect satisfying `bad`
occurs strictly before any occurrence of `b` in `t`. -/
def noneBeforeEach (bad : PEff → Bool) (b : PEff) : Bool → List PEff → Bool
  | _, [] => true
  | seen, x :: xs =>
    (if x = b then !seen else true) && noneBeforeEach bad b (seen || bad x) xs

/-- Success of a routed operation's own synchronous step, read off the
primitive outcomes in the environment: channel-open succeeds when the
socket call does; a handled power transition succeeds when the rfkill
open and write and (when the hook is enabled) the property set succeed;
the remaining operations never fail synchronously. -/
def opSucceeds (env : Env) (op : BtOpcode) (param : Option Int) : Bool :=
  match op with
  | BtOpcode.BT_VND_OP_POWER_CTRL =>
    match param with
    | none => true
    | some _ =>
      !env.rfkill_en ||
        (env.rfkillOpenOk && decide (0 ≤ env.rfkillWriteLen) &&
          (!env.bt_hwcfg_en || env.propSetOk))
  | BtOpcode.BT_VND_OP_USERIAL_OPEN => decide (0 ≤ env.socketRet)
  | _ => true

/-! ### Concrete inputs used to exercise the theorems. -/

/-- A baseline environment in which every primitive succeeds. -/
def envBase : Env :=
  { rfkill_en := false
    bt_hwcfg_en := false
    hci_interface := 0
    rfkillOpenOk := true
    rfkillWriteLen := 8
    propSetOk := true
    socketRet := 5
    fwWaitRet := 0
    fwIoctlRet := 0
    fwBindRet := 0 }

/-- The initial session state: no active descriptor. -/
def s0 : SessionState :=
  { bt_vendor_fd := -1, ch_cmd := -1, ch_evt := -1, ch_acl_out := -1, ch_acl_in := -1 }

/-- A session state with an active descriptor 7 in every slot. -/
def s7 : SessionState :=
  { bt_vendor_fd := 7, ch_cmd := 7, ch_evt := 7, ch_acl_out := 7, ch_acl_in := 7 }

/-- An index-added notification for interface 1. -/
def pktAdded : MgmtPkt :=
  { opcode := MGMT_EV_INDEX_ADDED, index := 1, len := 0, data := fun _ => 0 }

/-- A watcher environment whose only cycle delivers `pktAdded`. -/
def env4w : WaitEnv :=
  { socketOk := true, bindOk := true, writeRet := 6,
    cycles := [CycleOutcome.packet pktAdded] }

/-- A watcher environment whose first poll times out. -/
def env6w : WaitEnv :=
  { socketOk := true, bindOk := true, writeRet := 6,
    cycles := [CycleOutcome.pollTimeout] }

/-- Environment where rfkill is enabled but the rfkill device open fails. -/
def env5w : Env := { envBase with rfkill_en := true, rfkillOpenOk := false }

/-- Environment where the rfkill device opens but the write fails. -/
def env7w : Env := { envBase with rfkill_en := true, rfkillWriteLen := -1 }

/-- Environment with rfkill disabled but the hardware-config hook enabled. -/
def env9w : Env := { envBase with bt_hwcfg_en := true }

/-- A malformed command-complete packet: the 5 received payload bytes are
cc_opcode = 0x0003 (index-list), status = 0, num_intf = 600 (bytes 88, 2),
while the index sequence such a count promises would be 1200 bytes long.
All bytes beyond the received ones model whatever stale memory follows. -/
def pktOversized : MgmtPkt :=
  { opcode := MGMT_EV_COMMAND_COMP
    index := 0
    len := 5
    data := fun o => if o = 0 then 3 else if o = 3 then 88 else if o = 4 then 2 else 0 }

/-! ### Helper lemmas about the wait loop. -/

/-- The loop returns `r` exactly when the first deciding cycle outcome in
the list exits with `r`, every earlier cycle having been a continue. -/
theorem runLoop_fst_eq_some (target : Nat) (r : Int) (cs : List CycleOutcome) :
    (runLoop target cs).1 = some r ↔
      ∃ pre c post, cs = pre ++ c :: post ∧ step target c = StepRes.exit r ∧
        ∀ c' ∈ pre, step target c' = StepRes.again := by
  induction cs with
  | nil =>
    constructor
    · intro h
      simp [runLoop] at h
    · rintro ⟨pre, c, post, hd, -, -⟩
      exact absurd hd.symm (by simp)
  | cons c cs ih =>
    cases hstep : step target c with
    | exit r0 =>
      constructor
      · intro h
        have hr : r0 = r := by
          simpa [runLoop, hstep] using h
        exact ⟨[], c, cs, rfl, by rw [hstep, hr], by simp⟩
      · rintro ⟨pre, c0, post, hd, hexit, hpre⟩
        cases pre with
        | nil =>
          simp only [List.nil_append, List.cons.injEq] at hd
          obtain ⟨rfl, rfl⟩ := hd
          rw [hstep] at hexit
          simp only [StepRes.exit.injEq] at hexit
          simp [runLoop, hstep, hexit]
        | cons a pre =>
          simp only [List.cons_append, List.cons.injEq] at hd
          obtain ⟨rfl, -⟩ := hd
          have := hpre c (by simp)
          rw [hstep] at this
          exact absurd this (by simp)
    | again =>
      have hL : (runLoop target (c :: cs)).1 = (runLoop target cs).1 := by
        simp [runLoop, hstep]
      rw [hL, ih]
      constructor
      · rintro ⟨pre, c0, post, hd, hexit, hpre⟩
        refine ⟨c :: pre, c0, post, by rw [hd, List.cons_append], hexit, ?_⟩
        intro c' hc'
        rcases List.mem_cons.mp hc' with rfl | hmem
        · exact hstep
        · exact hpre c' hmem
      · rintro ⟨pre, c0, post, hd, hexit, hpre⟩
        cases pre with
        | nil =>
          simp only [List.nil_append, List.cons.injEq] at hd
          obtain ⟨rfl, -⟩ := hd
          rw [hstep] at hexit
          exact absurd hexit (by simp)
        | cons a pre =>
          simp only [List.cons_append, List.cons.injEq] at hd
          obtain ⟨rfl, rfl⟩ := hd
          exact ⟨pre, c0, post, rfl, hexit, fun c' hc' => hpre c' (by simp [hc'])⟩

/-- The loop body never closes the control socket. -/
theorem runLoop_no_close (target : Nat) (cs : List CycleOutcome) :
    ((runLoop target cs).2.countP isCloseEff) = 0 := by
  induction cs with
  | nil => simp [runLoop]
  | cons c cs ih =>
    cases hstep : step target c with
    | exit r0 =>
      simp only [runLoop, hstep]
      cases c <;> simp [cycleEffs, isCloseEff]
    | again =>
      simp only [runLoop, hstep, List.countP_append]
      rw [ih]
      cases c <;> simp [cycleEffs, isCloseEff]

/-- Every poll the loop body issues uses the fixed 3000 ms budget. -/
theorem runLoop_poll_budget (target : Nat) (cs : List CycleOutcome) (t : Nat)
    (h : WEff.pollCall t ∈ (runLoop target cs).2) : t = MGMT_EV_POLL_TIMEOUT := by
  induction cs with
  | nil => simp [runLoop] at h
  | cons c cs ih =>
    cases hstep : step target c with
    | exit r0 =>
      rw [runLoop, hstep] at h
      cases c <;> simp_all [cycleEffs]
    | again =>
      rw [runLoop, hstep, List.mem_append] at h
      rcases h with h | h
      · cases c <;> simp_all [cycleEffs]
      · exact ih h

/-- A cycle makes the loop exit with status 0 exactly when it is a success
event in the sense of the spec. -/
theorem step_exit_zero_iff (target : Nat) (c : CycleOutcome) :
    step target c = StepRes.exit 0 ↔ successEvent target c = true := by
  cases c with
  | pollError => simp [step, successEvent]
  | pollTimeout => simp [step, successEvent]
  | noPollin => simp [step, successEvent]
  | readError => simp [step, successEvent]
  | packet p =>
    simp only [step, successEvent, processPacket]
    split_ifs with h1 h2 h3 <;>
      simp_all [MGMT_EV_INDEX_ADDED, MGMT_EV_COMMAND_COMP, MGMT_OP_INDEX_LIST]
    rcases h3 with h3 | h3
    · exact fun hc => absurd hc h3
    · exact fun _ hs => absurd hs h3

/-- When socket, bind and request write all succeed, the watcher's
returned status is the loop's. -/
theorem wait_hcidev_fst (target : Nat) (env : WaitEnv) (hs : env.socketOk = true)
    (hb : env.bindOk = true) (hw : env.writeRet = 6) :
    (bt_vendor_wait_hcidev target env).1 = (runLoop target env.cycles).1 := by
  rcases env with ⟨so, bo, wr, cys⟩
  obtain rfl : so = true := hs
  obtain rfl : bo = true := hb
  obtain rfl : wr = (6 : Int) := hw
  simp only [bt_vendor_wait_hcidev]
  cases hrl : runLoop target cys with
  | mk o t => cases o <;> simp [hrl]

/-! ### Claim theorems. -/

/-- C3: every invocation of the bringup sequence `bt_vendor_fw_cfg` emits
exactly one asynchronous outcome callback — never zero, never more than
one — whether it fails at the channel-not-open check, the index wait, the
device-down ioctl, the bind, or succeeds. -/
theorem fw_cfg_exactly_one_callback (env : Env) (s : SessionState) :
    (bt_vendor_fw_cfg env s).countP isCbEff = 1 := by
  unfold bt_vendor_fw_cfg
  split_ifs <;> rfl

/-- C9: a power-control dispatch with the radio-kill feature disabled or a
null parameter returns status 0 and performs no effect at all: no rfkill
write and no hardware-config hook request, even when the hook flag is
enabled. -/
theorem power_ctrl_disabled_noop (env : Env) (s : SessionState) (param : Option Int)
    (h : env.rfkill_en = false ∨ param = none) :
    bt_vendor_op env s BtOpcode.BT_VND_OP_POWER_CTRL param = (0, s, []) := by
  rcases h with h | h
  · cases param <;> simp [bt_vendor_op, powerCtrl, h]
  · subst h
    simp [bt_vendor_op, powerCtrl]

/-- C9 witness: with rfkill disabled but the hook enabled, a power-on
dispatch returns 0 and produces no effects. -/
theorem power_ctrl_disabled_noop_witness :
    bt_vendor_op env9w s0 BtOpcode.BT_VND_OP_POWER_CTRL (some 1) = (0, s0, []) :=
  power_ctrl_disabled_noop env9w s0 (some 1) (Or.inl rfl)

/-- C10: a successful channel-open while a descriptor is already active
returns 1, overwrites `bt_vendor_fd` and all four channel slots with the
new descriptor, and never closes the previously active descriptor. -/
theorem userial_open_overwrites_without_close (env : Env) (s : SessionState)
    (_hactive : s.bt_vendor_fd ≠ -1) (hok : 0 ≤ env.socketRet) :
    (bt_vendor_op env s BtOpcode.BT_VND_OP_USERIAL_OPEN none).1 = 1 ∧
    (bt_vendor_op env s BtOpcode.BT_VND_OP_USERIAL_OPEN none).2.1 =
      { bt_vendor_fd := env.socketRet, ch_cmd := env.socketRet, ch_evt := env.socketRet,
        ch_acl_out := env.socketRet, ch_acl_in := env.socketRet } ∧
    ∀ fd, Eff.closeFd fd ∉ (bt_vendor_op env s BtOpcode.BT_VND_OP_USERIAL_OPEN none).2.2 := by
  have hlt : ¬env.socketRet < 0 := not_lt.mpr hok
  simp [bt_vendor_op, bt_vendor_open, hlt]

/-- C10 witness: opening over active descriptor 7 with new descriptor 5
rewrites the whole channel set to 5 and does not close 7. -/
theorem userial_open_overwrites_witness :
    (bt_vendor_op envBase s7 BtOpcode.BT_VND_OP_USERIAL_OPEN none).2.1 =
      { bt_vendor_fd := 5, ch_cmd := 5, ch_evt := 5, ch_acl_out := 5, ch_acl_in := 5 } ∧
    Eff.closeFd 7 ∉ (bt_vendor_op envBase s7 BtOpcode.BT_VND_OP_USERIAL_OPEN none).2.2 :=
  ⟨(userial_open_overwrites_without_close envBase s7 (by decide) (by decide)).2.1,
    (userial_open_overwrites_without_close envBase s7 (by decide) (by decide)).2.2 7⟩

/-- C7: for a boolean block input, `bt_vendor_rfkill` writes (after a
successful open) exactly one record with type = Bluetooth, operation =
change-all, and soft = hard = 1 for block = 1, soft = hard = 0 for
block = 0; the device descriptor is closed before returning on every path
after a successful open (the trace ends in `rfClose` whether or not the
write fails), and a failed write yields a nonzero status. -/
theorem rfkill_write_contract (env : Env) (block : Nat) :
    (env.rfkillOpenOk = true →
      (bt_vendor_rfkill env block).2 =
        [PEff.rfOpen, PEff.rfWrite (rfkillRecord block), PEff.rfClose]) ∧
    (rfkillRecord block).type = RFKILL_TYPE_BLUETOOTH ∧
    (rfkillRecord block).op = RFKILL_OP_CHANGE_ALL ∧
    (block = 1 → (rfkillRecord block).soft = 1 ∧ (rfkillRecord block).hard = 1) ∧
    (block = 0 → (rfkillRecord block).soft = 0 ∧ (rfkillRecord block).hard = 0) ∧
    (env.rfkillOpenOk = true → env.rfkillWriteLen < 0 →
      (bt_vendor_rfkill env block).1 ≠ 0) := by
  refine ⟨?_, rfl, rfl, ?_, ?_, ?_⟩
  · intro h
    by_cases hw : env.rfkillWriteLen < 0 <;> simp [bt_vendor_rfkill, h, hw]
  · rintro rfl
    exact ⟨rfl, rfl⟩
  · rintro rfl
    exact ⟨rfl, rfl⟩
  · intro h hw
    simp [bt_vendor_rfkill, h, hw]

/-- C7 witness: with a failing write and block = 1, the returned status is
nonzero and the trace is open, one write of the block-record, close. -/
theorem rfkill_write_contract_witness :
    (bt_vendor_rfkill env7w 1).1 ≠ 0 ∧
    (bt_vendor_rfkill env7w 1).2 =
      [PEff.rfOpen, PEff.rfWrite (rfkillRecord 1), PEff.rfClose] :=
  ⟨(rfkill_write_contract env7w 1).2.2.2.2.2 rfl (by decide),
    (rfkill_write_contract env7w 1).1 rfl⟩

/-- C6: on every exit path of `bt_vendor_wait_hcidev` after its control
socket was created — success, timeout, poll error, read error, bind
failure, or request-write failure — the socket is closed exactly once
before the function returns. -/
theorem wait_hcidev_closes_socket (target : Nat) (env : WaitEnv)
    (hs : env.socketOk = true)
    (hterm : (bt_vendor_wait_hcidev target env).1.isSome = true) :
    (bt_vendor_wait_hcidev target env).2.countP isCloseEff = 1 := by
  rcases env with ⟨so, bo, wr, cys⟩
  obtain rfl : so = true := hs
  cases bo with
  | false => simp [bt_vendor_wait_hcidev, isCloseEff]
  | true =>
    by_cases hw : wr = (6 : Int)
    · subst hw
      have hnc := runLoop_no_close target cys
      simp only [bt_vendor_wait_hcidev] at hterm ⊢
      cases hrl : runLoop target cys with
      | mk o t =>
        rw [hrl] at hnc
        cases o with
        | none =>
          rw [hrl] at hterm
          simp at hterm
        | some r => simp_all [List.countP_append, isCloseEff]
    · simp [bt_vendor_wait_hcidev, hw, isCloseEff]

/-- C6 witness: a run whose first poll times out closes the socket exactly
once. -/
theorem wait_hcidev_closes_socket_witness :
    (bt_vendor_wait_hcidev 1 env6w).2.countP isCloseEff = 1 :=
  wait_hcidev_closes_socket 1 env6w rfl (by decide)

/-- C8: every poll call the index watcher issues uses the same fixed
timeout constant `MGMT_EV_POLL_TIMEOUT` as its budget; the budget is
applied per wait cycle and never decremented across loop iterations. -/
theorem wait_hcidev_fixed_poll_budget (target : Nat) (env : WaitEnv) (t : Nat)
    (h : WEff.pollCall t ∈ (bt_vendor_wait_hcidev target env).2) :
    t = MGMT_EV_POLL_TIMEOUT := by
  rcases env with ⟨so, bo, wr, cys⟩
  cases so with
  | false => simp [bt_vendor_wait_hcidev] at h
  | true =>
    cases bo with
    | false => simp [bt_vendor_wait_hcidev] at h
    | true =>
      by_cases hw : wr = (6 : Int)
      · subst hw
        simp only [bt_vendor_wait_hcidev] at h
        cases hrl : runLoop target cys with
        | mk o t0 =>
          rw [hrl] at h
          have hmem : WEff.pollCall t ∈ t0 := by
            cases o <;> simp at h <;> tauto
          have := runLoop_poll_budget target cys t
          rw [hrl] at this
          exact this hmem
      · simp [bt_vendor_wait_hcidev, hw] at h

/-- C8 witness: the constant budget of the single poll in a timeout run. -/
theorem wait_hcidev_fixed_poll_budget_witness : (3000 : Nat) = MGMT_EV_POLL_TIMEOUT :=
  wait_hcidev_fixed_poll_budget 1 env6w 3000 (by decide)

/-- C4: with the socket created, bound, and the request written, the index
watcher returns success (status 0) iff, before any loop-terminating cycle,
some cycle delivers either an index-added notification whose header index
equals the target or a command-complete index-list response with zero
status containing the target in its index sequence; a command-complete
event with mismatched sub-opcode or nonzero status is ignored and polling
continues; and if a (reachable) poll cycle returns no event, the watcher
returns the failure status -1. -/
theorem wait_hcidev_success_iff (target : Nat) (env : WaitEnv)
    (hs : env.socketOk = true) (hb : env.bindOk = true) (hw : env.writeRet = 6) :
    ((bt_vendor_wait_hcidev target env).1 = some 0 ↔
      ∃ pre c post, env.cycles = pre ++ c :: post ∧ successEvent target c = true ∧
        ∀ c' ∈ pre, step target c' = StepRes.again) ∧
    (∀ p : MgmtPkt, p.opcode = MGMT_EV_COMMAND_COMP →
      (cc_opcode p ≠ MGMT_OP_INDEX_LIST ∨ ccStatus p ≠ 0) →
      step target (CycleOutcome.packet p) = StepRes.again) ∧
    (∀ pre post, env.cycles = pre ++ CycleOutcome.pollTimeout :: post →
      (∀ c' ∈ pre, step target c' = StepRes.again) →
      (bt_vendor_wait_hcidev target env).1 = some (-1)) := by
  refine ⟨?_, ?_, ?_⟩
  · rw [wait_hcidev_fst target env hs hb hw, runLoop_fst_eq_some]
    exact exists_congr fun pre => exists_congr fun c => exists_congr fun post =>
      and_congr_right fun _ => and_congr_left fun _ => step_exit_zero_iff target c
  · intro p h1 h2
    simp only [step, processPacket]
    rw [if_neg fun hcon => by rw [h1] at hcon; exact absurd hcon.1 (by decide),
      if_pos h1, if_pos h2]
  · intro pre post hdec hpre
    rw [wait_hcidev_fst target env hs hb hw, runLoop_fst_eq_some]
    exact ⟨pre, CycleOutcome.pollTimeout, post, hdec, rfl, hpre⟩

/-- C4 witness: the watcher succeeds when the only cycle delivers an
index-added notification for the target interface. -/
theorem wait_hcidev_success_iff_witness : (bt_vendor_wait_hcidev 1 env4w).1 = some 0 :=
  ((wait_hcidev_success_iff 1 env4w rfl rfl rfl).1).mpr
    ⟨[], CycleOutcome.packet pktAdded, [], rfl, by decide, by simp⟩

set_option maxRecDepth 100000 in
/-- C2 (counterexample evaluation at a concrete malformed packet): on
`pktOversized`, a command-complete packet of which only 11 bytes (5
payload bytes) were received, the guard fields pass (sub-opcode =
index-list, status = 0), `num_intf` decodes to 600, and the scan loop at
lines 216-218 runs all 600 iterations, reading `cc->index[i]` bytes up to
payload offset 1204 — beyond the 5 received payload bytes and beyond the
1024-byte `ev.data` buffer itself. The count promised by the payload is
trusted without any check against the received length. -/
theorem cc_index_scan_out_of_bounds :
    cc_opcode pktOversized = MGMT_OP_INDEX_LIST ∧
    ccStatus pktOversized = 0 ∧
    num_intf pktOversized = 600 ∧
    processPacket 1 pktOversized = StepRes.again ∧
    ccIterations 1 pktOversized = 600 ∧
    ccMaxAccessedByte 1 pktOversized = 1204 ∧
    MGMT_EV_SIZE_MAX < ccMaxAccessedByte 1 pktOversized ∧
    5 < ccMaxAccessedByte 1 pktOversized := by
  decide

/-- C5: in every power transition handled by the dispatcher (rfkill
enabled, non-null parameter), any hook-start request is strictly preceded
in the effect trace by the radio-unblock write, no rfkill write ever
occurs before a hook-stop request, and the first failing step
short-circuits: power-on with a failing rfkill step returns that step's
nonzero status with the hook step unperformed, and power-off with a
failing hook step returns that step's nonzero status with the rfkill step
unperformed. -/
theorem power_transition_ordering (env : Env) (v : Int) (hen : env.rfkill_en = true) :
    eachPrecededBy (PEff.rfWrite (rfkillRecord 0)) (PEff.hookSet false) false
        (powerCtrl env (some v)).2 = true ∧
    noneBeforeEach isRfWrite (PEff.hookSet true) false (powerCtrl env (some v)).2 = true ∧
    (v = BT_VND_PWR_ON → (bt_vendor_rfkill env 0).1 ≠ 0 →
      powerCtrl env (some v) = bt_vendor_rfkill env 0) ∧
    (v ≠ BT_VND_PWR_ON → (bt_vendor_hw_cfg env true).1 ≠ 0 →
      powerCtrl env (some v) = bt_vendor_hw_cfg env true) := by
  rcases env with ⟨rf, hwen, hci, ro, wl, ps, sr, f1, f2, f3⟩
  obtain rfl : rf = true := hen
  by_cases hv : v = BT_VND_PWR_ON <;>
    cases ro <;> cases hwen <;> cases ps <;> by_cases hwl : wl < 0 <;>
      simp [powerCtrl, bt_vendor_rfkill, bt_vendor_hw_cfg, eachPrecededBy,
        noneBeforeEach, isRfWrite, rfkillRecord, hv, hwl]

/-- C5 witness: power-on with a failing rfkill open short-circuits to the
rfkill step's own result. -/
theorem power_transition_ordering_witness :
    powerCtrl env5w (some 1) = bt_vendor_rfkill env5w 0 :=
  (power_transition_ordering env5w 1 rfl).2.2.1 rfl (by decide)

/-- C1 counterexample: a successful channel-open request returns 1 — not
0 — to the immediate caller: the socket call succeeds (descriptor 5 is
recorded as the session descriptor) and the dispatcher's status for
`USERIAL_OPEN` is 1. -/
theorem userial_open_success_returns_nonzero :
    (bt_vendor_op envBase s0 BtOpcode.BT_VND_OP_USERIAL_OPEN none).1 = 1 ∧
    (bt_vendor_op envBase s0 BtOpcode.BT_VND_OP_USERIAL_OPEN none).2.1.bt_vendor_fd = 5 ∧
    ¬(bt_vendor_op envBase s0 BtOpcode.BT_VND_OP_USERIAL_OPEN none).1 = 0 := by
  decide

/-- C1 (amended): every routed operation whose synchronous step succeeds
returns status 0 to the immediate caller, except a successful channel-open
(`USERIAL_OPEN`), which returns 1 (the count of descriptors opened). -/
theorem op_success_status (env : Env) (s : SessionState) (op : BtOpcode)
    (param : Option Int) (h : opSucceeds env op param = true) :
    (bt_vendor_op env s op param).1 =
      if op = BtOpcode.BT_VND_OP_USERIAL_OPEN then 1 else 0 := by
  cases op with
  | BT_VND_OP_POWER_CTRL =>
    cases param with
    | none => simp [bt_vendor_op, powerCtrl]
    | some v =>
      rcases env with ⟨rf, hwen, hci, ro, wl, ps, sr, f1, f2, f3⟩
      simp only [opSucceeds, Bool.or_eq_true, Bool.not_eq_true', Bool.and_eq_true,
        decide_eq_true_eq] at h
      rcases h with h | ⟨⟨h1, h2⟩, h3⟩
      · subst h
        by_cases hv : v = BT_VND_PWR_ON <;> simp [bt_vendor_op, powerCtrl, hv]
      · subst h1
        have hwl : ¬wl < 0 := not_lt.mpr h2
        rcases h3 with h3 | h3
        · subst h3
          by_cases hrf : rf = false <;> by_cases hv : v = BT_VND_PWR_ON <;>
            simp [bt_vendor_op, powerCtrl, bt_vendor_rfkill, bt_vendor_hw_cfg, hv, hwl, hrf]
        · subst h3
          cases hwen <;> by_cases hrf : rf = false <;> by_cases hv : v = BT_VND_PWR_ON <;>
            simp [bt_vendor_op, powerCtrl, bt_vendor_rfkill, bt_vendor_hw_cfg, hv, hwl, hrf]
  | BT_VND_OP_USERIAL_OPEN =>
    simp only [opSucceeds, decide_eq_true_eq] at h
    simp [bt_vendor_op, bt_vendor_open, not_lt.mpr h]
  | BT_VND_OP_USERIAL_CLOSE =>
    by_cases hfd : s.bt_vendor_fd = -1 <;> simp [bt_vendor_op, bt_vendor_close, hfd]
  | BT_VND_OP_FW_CFG => simp [bt_vendor_op]
  | BT_VND_OP_SCO_CFG => simp [bt_vendor_op]
  | BT_VND_OP_GET_LPM_IDLE_TIMEOUT => simp [bt_vendor_op]
  | BT_VND_OP_LPM_SET_MODE => simp [bt_vendor_op]
  | BT_VND_OP_LPM_WAKE_SET_STATE => simp [bt_vendor_op]
  | BT_VND_OP_SET_AUDIO_STATE => simp [bt_vendor_op]
  | BT_VND_OP_EPILOG => simp [bt_vendor_op]
  | BT_VND_OP_A2DP_OFFLOAD_START => simp [bt_vendor_op]
  | BT_VND_OP_A2DP_OFFLOAD_STOP => simp [bt_vendor_op]

/-- C1 witness: the amended statement evaluated at a successful
channel-open: the status is 1. -/
theorem op_success_status_witness :
    (bt_vendor_op envBase s0 BtOpcode.BT_VND_OP_USERIAL_OPEN none).1 = 1 := by
  have h := op_success_status envBase s0 BtOpcode.BT_VND_OP_USERIAL_OPEN none (by decide)
  simpa using h

end LibbtVendor
